import Mathlib

/-!
Verification development for the Bedrock lambda proxy gateway
(`bedrock-lambda-proxy.py`).  The Python source is shallowly embedded:
JSON values become an inductive `Json` type, Python's dynamic failures
(`TypeError`, `AttributeError`, `json.loads` failures, backend faults)
become an explicit `PyErr` error type threaded through `Except`, and the
handler becomes a pure function from an event, a token-store oracle and a
backend oracle to an outcome recording the HTTP response (or live-stream
generator run), the usage records printed, and the number of backend calls.

Floating-point remark: the source computes `int(n * 0.9)` and
`int(n * 1.1)` on a non-negative integer `n`.  For all realistically sized
`n` (far beyond any text length, up to about 2^49) these IEEE-754 double
computations coincide with the exact rational truncations `⌊9n/10⌋` and
`⌊11n/10⌋`; the embedding uses the exact arithmetic.
-/

/-- Python `re`'s word-character class `\w` (ASCII fragment): letters,
digits and underscore. -/
def isWordChar (c : Char) : Bool := c.isAlpha || c.isDigit || c == '_'

/-- Python `re`'s whitespace class `\s` (ASCII fragment). -/
def isSpaceChar (c : Char) : Bool :=
  c == ' ' || c == '\t' || c == '\n' || c == '\r' || c == '\x0b' || c == '\x0c'

/-- `leadMatch pat s` is true when `pat` occurs at the head of `s`
(the check used by Python's `str.startswith`). -/
def leadMatch : List Char → List Char → Bool
  | [], _ => true
  | _ :: _, [] => false
  | a :: as, b :: bs => a == b && leadMatch as bs

/-- `hasSub pat s` is true when `pat` occurs somewhere in `s`
(Python's `in` operator on strings). -/
def hasSub (pat : List Char) : List Char → Bool
  | [] => leadMatch pat []
  | c :: cs => leadMatch pat (c :: cs) || hasSub pat cs

/-- Substring test on `String`s: `strHasSub s pat` is Python's `pat in s`. -/
def strHasSub (s pat : String) : Bool := hasSub pat.data s.data

/-- Python's `str.lower()` (character-wise lowercasing). -/
def lowerStr (s : String) : String := String.mk (s.data.map Char.toLower)

/-- Embedding of `len(re.findall(r'\w+', text))`: scan the text counting
maximal word-character runs; the Boolean argument records whether the
previous character was a word character. -/
def countRunsAux : List Char → Bool → Nat
  | [], _ => 0
  | c :: cs, inWord =>
    if isWordChar c then (if inWord then 0 else 1) + countRunsAux cs true
    else countRunsAux cs false

/-- Number of maximal word-character runs in `text` (`re.findall(r'\w+', …)`). -/
def wordCount (text : String) : Nat := countRunsAux text.data false

/-- Embedding of `len(re.findall(r'[^\w\s]', text))`: the number of
characters that are neither word characters nor whitespace. -/
def punctCount (text : String) : Nat :=
  (text.data.filter (fun c => !isWordChar c && !isSpaceChar c)).length

/-- Base token estimate: words plus standalone punctuation marks
(`len(words) + len(punctuation)` in the source). -/
def baseEstimate (text : String) : Nat := wordCount text + punctCount text

/-- Embedding of `estimate_tokens` (source lines 13–26).  The float
products `* 0.9` / `* 1.1` followed by `int(...)` are modelled by the
exact truncations `(9*e)/10` and `(11*e)/10` (see the header remark). -/
def estimate_tokens (text : String) (model_id : String) : Nat :=
  if text.isEmpty then 0
  else
    let e := baseEstimate text
    if strHasSub (lowerStr model_id) "claude" then (9 * e) / 10
    else if strHasSub (lowerStr model_id) "llama" then (11 * e) / 10
    else e

/-- JSON-like Python values as produced by `json.loads`. -/
inductive Json where
  | null
  | bool (b : Bool)
  | num (n : Int)
  | str (s : String)
  | arr (xs : List Json)
  | obj (fields : List (String × Json))

/-- Dynamic (unhandled-exception) outcomes of the embedded Python code. -/
inductive PyErr where
  /-- Python `TypeError` (e.g. `'x' in 5`, `"" + 5`, iterating an int). -/
  | typeError
  /-- Python `AttributeError` (e.g. `.get` on a non-dict). -/
  | attributeError
  /-- `json.loads` failure on a body that is not valid JSON. -/
  | valueError
  /-- An exception raised by the backend's synchronous invoke call. -/
  | backendError
  /-- An exception raised by the backend's response stream mid-iteration. -/
  | streamError
deriving DecidableEq

/-- Python truthiness (`if x:`) of a JSON-like value. -/
def pyTruthy : Json → Bool
  | Json.null => false
  | Json.bool b => b
  | Json.num n => n != 0
  | Json.str s => !s.isEmpty
  | Json.arr xs => !xs.isEmpty
  | Json.obj fs => !fs.isEmpty

/-- True when the value is exactly the Python string `s`
(Python `v == 's'` for a string literal: only strings can compare equal). -/
def jsonIsStr : Json → String → Bool
  | Json.str t, s => t == s
  | _, _ => false

/-- Field lookup on an object value; `none` on non-objects. -/
def jLookup (j : Json) (k : String) : Option Json :=
  match j with
  | Json.obj fs => fs.lookup k
  | _ => none

/-- Python's `k in chunk` for a string `k`: key test on dicts, membership
on lists, substring test on strings, `TypeError` otherwise. -/
def pyContains (chunk : Json) (k : String) : Except PyErr Bool :=
  match chunk with
  | Json.obj fs => Except.ok (fs.any (fun f => f.1 == k))
  | Json.arr xs => Except.ok (xs.any (fun x => jsonIsStr x k))
  | Json.str s => Except.ok (strHasSub s k)
  | _ => Except.error PyErr.typeError

/-- Python's `chunk[k]` for a string key: dict lookup (`KeyError`
impossible in the source because the key was tested first — modelled as a
`typeError` for uniformity), `TypeError` on every non-dict. -/
def pySubscript (chunk : Json) (k : String) : Except PyErr Json :=
  match chunk with
  | Json.obj fs =>
    match fs.lookup k with
    | some v => Except.ok v
    | none => Except.error PyErr.typeError
  | _ => Except.error PyErr.typeError

/-- Python's `v.get(k, dflt)`: defaulting lookup on dicts,
`AttributeError` on every other value. -/
def pyGet (v : Json) (k : String) (dflt : Json) : Except PyErr Json :=
  match v with
  | Json.obj fs => Except.ok ((fs.lookup k).getD dflt)
  | _ => Except.error PyErr.attributeError

/-- Inner loop of the chunk extractor (source lines 215–218 / 272–275):
fold over the parts of a `content` list, appending the `text` of every
part whose `type` is `"text"`; a non-dict part raises `AttributeError`,
and appending a non-string `text` value raises `TypeError`. -/
def partsLoop : List Json → String → Except PyErr String
  | [], acc => Except.ok acc
  | it :: its, acc =>
    match pyGet it "type" Json.null with
    | Except.error e => Except.error e
    | Except.ok t =>
      if jsonIsStr t "text" then
        match pyGet it "text" (Json.str "") with
        | Except.error e => Except.error e
        | Except.ok (Json.str s) => partsLoop its (acc ++ s)
        | Except.ok _ => Except.error PyErr.typeError
      else partsLoop its acc

/-- Embedding of the per-chunk text extraction, source lines 210–220
(identically lines 267–277): the `completion` field if present, else the
`content` field — a list of typed parts is concatenated, any other value
is taken via `chunk.get('content', '')` — else the empty string.  The
result is the dynamic value of `text_content` (not forced to be a
string, exactly as in Python). -/
def extractText (chunk : Json) : Except PyErr Json :=
  match pyContains chunk "completion" with
  | Except.error e => Except.error e
  | Except.ok true => pySubscript chunk "completion"
  | Except.ok false =>
    match pyContains chunk "content" with
    | Except.error e => Except.error e
    | Except.ok true =>
      match pySubscript chunk "content" with
      | Except.error e => Except.error e
      | Except.ok (Json.arr items) =>
        match partsLoop items "" with
        | Except.error e => Except.error e
        | Except.ok s => Except.ok (Json.str s)
      | Except.ok _ => pyGet chunk "content" (Json.str "")
    | Except.ok false => Except.ok (Json.str "")

/-- Embedding of `authorization.replace('Bearer ', '')` (source line 67):
Python's `str.replace` removes EVERY occurrence of the pattern, scanning
left to right without overlap — not only the leading one. -/
def stripBearerAll : List Char → List Char
  | 'B' :: 'e' :: 'a' :: 'r' :: 'e' :: 'r' :: ' ' :: rest => stripBearerAll rest
  | c :: cs => c :: stripBearerAll cs
  | [] => []

/-- The token the handler looks up in the token store for a given
`Authorization` header value. -/
def extractedToken (authorization : String) : String :=
  String.mk (stripBearerAll authorization.data)

/-- Embedding of `token_item.get('status') in ['active', 'deprecated']`
(source line 74); an absent status is Python `None`, which is in neither. -/
def statusOk (item : List (String × Json)) : Bool :=
  match item.lookup "status" with
  | some v => jsonIsStr v "active" || jsonIsStr v "deprecated"
  | none => false

/-- The guard of source line 74: `token_item` truthy AND status acceptable. -/
def itemOkB (item : List (String × Json)) : Bool :=
  pyTruthy (Json.obj item) && statusOk item

/-- Python's `dict.pop(k, default)` on a parsed JSON object: the popped
value (if any) and the remaining fields with the first `k` entry removed. -/
def pyPop (fields : List (String × Json)) (k : String) :
    Option Json × List (String × Json) :=
  match fields.lookup k with
  | some v => (some v, fields.eraseP (fun f => f.1 == k))
  | none => (none, fields)

/-- The streaming decision of source line 108 plus line 129:
`use_streaming = request_body.pop('stream', False)` followed by the
truthiness test `if not use_streaming`. -/
def streamFlag (fields : List (String × Json)) : Bool :=
  pyTruthy (((pyPop fields "stream").1).getD (Json.bool false))

/-- The backend-bound payload (source lines 98 and 108): the request
object after popping `modelId` and then `stream`. -/
def backendPayload (fields : List (String × Json)) : List (String × Json) :=
  (pyPop (pyPop fields "modelId").2 "stream").2

/-- Inner loop of the input-text extraction, source lines 115–117: fold
over the parts of a message's `content` list, appending the `text` of
parts whose `type` is `"text"` (same dynamic failures as `partsLoop`). -/
def msgPartsLoop : List Json → String → Except PyErr String
  | [], acc => Except.ok acc
  | it :: its, acc =>
    match pyGet it "type" Json.null with
    | Except.error e => Except.error e
    | Except.ok t =>
      if jsonIsStr t "text" then
        match pyGet it "text" (Json.str "") with
        | Except.error e => Except.error e
        | Except.ok (Json.str s) => msgPartsLoop its (acc ++ s)
        | Except.ok _ => Except.error PyErr.typeError
      else msgPartsLoop its acc

/-- Loop over `request_body['messages']` (source lines 113–119): a list
`content` is folded with `msgPartsLoop`, a string `content` is appended,
anything else contributes nothing; a non-dict message raises. -/
def inputTextLoop : List Json → String → Except PyErr String
  | [], acc => Except.ok acc
  | m :: ms, acc =>
    match pyGet m "content" Json.null with
    | Except.error e => Except.error e
    | Except.ok (Json.arr parts) =>
      match msgPartsLoop parts acc with
      | Except.error e => Except.error e
      | Except.ok acc2 => inputTextLoop ms acc2
    | Except.ok (Json.str s) => inputTextLoop ms (acc ++ s)
    | Except.ok _ => inputTextLoop ms acc

/-- Embedding of the `input_text` computation (source lines 111–119) on
the already-popped request body.  Iterating a non-list `messages` value
raises unless it is empty (an empty dict or string iterates zero times);
iterating a non-empty dict or string yields strings, whose `.get` raises
`AttributeError`; other values are not iterable (`TypeError`). -/
def inputTextOf (fields : List (String × Json)) : Except PyErr String :=
  match fields.lookup "messages" with
  | none => Except.ok ""
  | some (Json.arr ms) => inputTextLoop ms ""
  | some (Json.obj []) => Except.ok ""
  | some (Json.obj (_ :: _)) => Except.error PyErr.attributeError
  | some (Json.str s) =>
    if s.isEmpty then Except.ok "" else Except.error PyErr.attributeError
  | some _ => Except.error PyErr.typeError

/-- `estimate_tokens` applied to a dynamic `model_id` value: the source
returns 0 on empty text before touching `model_id`; on non-empty text a
non-string `model_id` raises `AttributeError` at `model_id.lower()`. -/
def estimateE (text : String) (model_id : Json) : Except PyErr Nat :=
  if text.isEmpty then Except.ok 0
  else
    match model_id with
    | Json.str m => Except.ok (estimate_tokens text m)
    | _ => Except.error PyErr.attributeError

/-- The `input_tokens` value the handler records (source lines 111–121):
input-text extraction followed by token estimation. -/
def computedInputTokens (fields : List (String × Json)) (model_id : Json) :
    Except PyErr Nat :=
  match inputTextOf fields with
  | Except.error e => Except.error e
  | Except.ok t => estimateE t model_id

/-- Output-text extraction of the synchronous path (source lines 142–149):
only a `content` field is inspected; a list of typed parts is concatenated,
a plain string is taken, and — unlike the streaming extractor — any other
`content` value contributes nothing. -/
def extractSyncOutput (response_body : Json) : Except PyErr String :=
  match pyContains response_body "content" with
  | Except.error e => Except.error e
  | Except.ok false => Except.ok ""
  | Except.ok true =>
    match pySubscript response_body "content" with
    | Except.error e => Except.error e
    | Except.ok (Json.arr items) => partsLoop items ""
    | Except.ok (Json.str s) => Except.ok ("" ++ s)
    | Except.ok _ => Except.ok ""

/-- One pass of the live-mode chunk loop (source lines 207–225): for each
chunk, extract the text; when truthy it must be a string (else the
accumulation `output_text += text_content` raises `TypeError`), is
appended to `output_text` and yielded as an SSE fragment.  The result is
the list of yielded fragment texts, the accumulated `output_text`, and
the first dynamic error if one occurred (fragments yielded before the
error are kept, as the generator already delivered them). -/
def liveLoop : List Json → List String × String × Option PyErr
  | [] => ([], "", none)
  | c :: cs =>
    match extractText c with
    | Except.error e => ([], "", some e)
    | Except.ok t =>
      if pyTruthy t then
        match t with
        | Json.str s =>
          let r := liveLoop cs
          (s :: r.1, s ++ r.2.1, r.2.2)
        | _ => ([], "", some PyErr.typeError)
      else liveLoop cs

/-- One pass of the buffered-mode chunk loop (source lines 264–282),
transcribed separately from its own lines: the list is the `content`
entries collected into `collected_chunks`. -/
def bufLoop : List Json → List String × String × Option PyErr
  | [] => ([], "", none)
  | c :: cs =>
    match extractText c with
    | Except.error e => ([], "", some e)
    | Except.ok t =>
      if pyTruthy t then
        match t with
        | Json.str s =>
          let r := bufLoop cs
          (s :: r.1, s ++ r.2.1, r.2.2)
        | _ => ([], "", some PyErr.typeError)
      else bufLoop cs

/-- Concatenation of a list of fragments. -/
def concatFrags (l : List String) : String := l.foldr (fun a b => a ++ b) ""

/-- Inbound event.  `authorization` is the `Authorization` header (absent
or present); `body` is the result of `json.loads(event.get('body','{}'))`
— `none` models body text that is not valid JSON (an absent body defaults
to `'{}'`, i.e. `some (Json.obj [])`); `isApiGateway` models
`event.get('requestContext', {}).get('apiGateway') is not None`. -/
structure Event where
  httpMethod : String
  authorization : Option String
  body : Option Json
  isApiGateway : Bool

/-- Behaviour of the inference backend for this call: the synchronous
invoke result (error = a raised exception), the chunks its response
stream yields, and whether the stream raises after those chunks. -/
structure Backend where
  invokeResult : Except Unit Json
  streamChunks : List Json
  streamFault : Bool

/-- Usage records printed by the handler, reduced to the fields the
claims mention (`event_type` is the constructor; the remaining logged
fields — request id, duration, timestamp — carry no claim content). -/
inductive UsageRecord where
  | invoke (customer_id model_id : Json) (input_tokens output_tokens : Nat)
  | stream (customer_id model_id : Json) (input_tokens output_tokens : Nat)
  | error (customer_id : Json)

/-- An HTTP response: status code and JSON body. -/
structure HttpResponse where
  statusCode : Nat
  body : Json

/-- A run of the live-streaming generator (`generate_streaming_response`,
source lines 192–248), which executes only after `lambda_handler` has
returned: the fragment texts of the `data:` frames it yielded, whether
the terminal `[END]` frame was yielded, the usage record it printed (if
it completed), and the exception it raised (if any) — such an exception
propagates to the generator's consumer, not to the handler's `except`. -/
structure GenRun where
  fragments : List String
  emittedEnd : Bool
  log : Option UsageRecord
  raised : Option PyErr

/-- Outcome shape of `lambda_handler`: a plain HTTP response or the
generator object whose later run is `GenRun`. -/
inductive HandlerResult where
  | http (r : HttpResponse)
  | streamGen (g : GenRun)

/-- Full observable outcome of one call: the result, the usage records
printed by the handler body itself, and how many backend invocations
occurred. -/
structure HandlerOutcome where
  result : HandlerResult
  records : List UsageRecord
  backendCalls : Nat

/-- All usage records ever emitted for the call, including the one the
live-mode generator prints after the handler returned. -/
def allRecords (o : HandlerOutcome) : List UsageRecord :=
  o.records ++
    (match o.result with
     | HandlerResult.streamGen g => g.log.toList
     | _ => [])

/-- Status code of the outcome when it is a plain HTTP response. -/
def respStatus (o : HandlerOutcome) : Option Nat :=
  match o.result with
  | HandlerResult.http r => some r.statusCode
  | _ => none

/-- True when the outcome is a live-stream generator whose run raised. -/
def liveRaised (o : HandlerOutcome) : Bool :=
  match o.result with
  | HandlerResult.streamGen g => g.raised.isSome
  | _ => false

/-- Error response body `{'error': msg}`. -/
def errBody (msg : String) : Json := Json.obj [("error", Json.str msg)]

/-- Run of the live-streaming generator body (source lines 192–248):
header frame, the chunk loop, the `[END]` frame, then output-token
estimation and the single `bedrock_stream` record.  A mid-stream backend
fault or a dynamic error gives a raised generator and NO record. -/
def runGenerator (customer_id model_id : Json) (input_tokens : Nat)
    (be : Backend) : GenRun :=
  let r := liveLoop be.streamChunks
  match r.2.2 with
  | some e => { fragments := r.1, emittedEnd := false, log := none, raised := some e }
  | none =>
    if be.streamFault then
      { fragments := r.1, emittedEnd := false, log := none, raised := some PyErr.streamError }
    else
      match estimateE r.2.1 model_id with
      | Except.error e =>
        { fragments := r.1, emittedEnd := true, log := none, raised := some e }
      | Except.ok output_tokens =>
        { fragments := r.1, emittedEnd := true
          log := some (UsageRecord.stream customer_id model_id input_tokens output_tokens)
          raised := none }

/-- Result of the post-authentication part of the `try` block: a normal
return, a returned live generator, or an exception reaching the
handler's `except` clause; each carries the backend-call count. -/
inductive PostAuth where
  | resp (r : HttpResponse) (calls : Nat) (recs : List UsageRecord)
  | live (g : GenRun) (calls : Nat)
  | raised (e : PyErr) (calls : Nat)

/-- Embedding of source lines 94–310: everything inside the `try` block
after the customer has been resolved. -/
def afterAuth (customer_id : Json) (body : Option Json) (isApiGw : Bool)
    (be : Backend) : PostAuth :=
  match body with
  | none => PostAuth.raised PyErr.valueError 0
  | some (Json.obj fields0) =>
    let model_id := ((pyPop fields0 "modelId").1).getD Json.null
    let fields1 := (pyPop fields0 "modelId").2
    if !pyTruthy model_id then
      PostAuth.resp { statusCode := 400, body := errBody "modelId is required" } 0 []
    else
      let use_streaming := streamFlag fields1
      let fields2 := backendPayload fields0
      match computedInputTokens fields2 model_id with
      | Except.error e => PostAuth.raised e 0
      | Except.ok input_tokens =>
        if !use_streaming then
          match be.invokeResult with
          | Except.error _ => PostAuth.raised PyErr.backendError 1
          | Except.ok response_body =>
            match extractSyncOutput response_body with
            | Except.error e => PostAuth.raised e 1
            | Except.ok output_text =>
              match estimateE output_text model_id with
              | Except.error e => PostAuth.raised e 1
              | Except.ok output_tokens =>
                PostAuth.resp { statusCode := 200, body := response_body } 1
                  [UsageRecord.invoke customer_id model_id input_tokens output_tokens]
        else
          if !isApiGw then
            PostAuth.live (runGenerator customer_id model_id input_tokens be) 1
          else
            let r := bufLoop be.streamChunks
            match r.2.2 with
            | some e => PostAuth.raised e 1
            | none =>
              if be.streamFault then PostAuth.raised PyErr.streamError 1
              else
                match estimateE r.2.1 model_id with
                | Except.error e => PostAuth.raised e 1
                | Except.ok output_tokens =>
                  PostAuth.resp
                    { statusCode := 200
                      body := Json.arr
                        ((r.1.map (fun s => Json.obj [("content", Json.str s)])) ++
                          [Json.obj [("done", Json.bool true)]]) } 1
                    [UsageRecord.stream customer_id model_id input_tokens output_tokens]
  | some _ => PostAuth.raised PyErr.attributeError 0

/-- Embedding of the handler's `except` clause (source lines 312–335):
an exception becomes a 500 response, preceded by one `bedrock_error`
record when `customer_id` is truthy. -/
def assemble (customer_id : Json) (pa : PostAuth) : HandlerOutcome :=
  match pa with
  | PostAuth.resp r calls recs =>
    { result := HandlerResult.http r, records := recs, backendCalls := calls }
  | PostAuth.live g calls =>
    { result := HandlerResult.streamGen g, records := [], backendCalls := calls }
  | PostAuth.raised _ calls =>
    { result := HandlerResult.http { statusCode := 500, body := errBody "internal" }
      records := if pyTruthy customer_id then [UsageRecord.error customer_id] else []
      backendCalls := calls }

/-- Token-store lookup and the checks of source lines 70–92 (the store is
modelled as a total oracle, so the inner `except` branch — a store
infrastructure fault — does not arise). -/
def lookupStage (token : String) (ev : Event)
    (store : String → Option (List (String × Json))) (be : Backend) : HandlerOutcome :=
  match store token with
  | none =>
    { result := HandlerResult.http { statusCode := 401, body := errBody "Invalid or expired token" }
      records := [], backendCalls := 0 }
  | some item =>
    if !itemOkB item then
      { result := HandlerResult.http { statusCode := 401, body := errBody "Invalid or expired token" }
        records := [], backendCalls := 0 }
    else
      let customer_id := (item.lookup "customer_id").getD Json.null
      assemble customer_id (afterAuth customer_id ev.body ev.isApiGateway be)

/-- Embedding of `lambda_handler` (source lines 28–335). -/
def lambda_handler (ev : Event) (store : String → Option (List (String × Json)))
    (be : Backend) : HandlerOutcome :=
  if ev.httpMethod == "OPTIONS" then
    { result := HandlerResult.http
        { statusCode := 200, body := Json.obj [("message", Json.str "CORS preflight response")] }
      records := [], backendCalls := 0 }
  else
    match ev.authorization with
    | none =>
      { result := HandlerResult.http
          { statusCode := 401
            body := errBody "Authorization header missing or invalid format. Use Bearer token." }
        records := [], backendCalls := 0 }
    | some auth =>
      if !leadMatch "Bearer ".data auth.data then
        { result := HandlerResult.http
            { statusCode := 401
              body := errBody "Authorization header missing or invalid format. Use Bearer token." }
          records := [], backendCalls := 0 }
      else
        lookupStage (extractedToken auth) ev store be

example : extractText (Json.obj [("completion", Json.str "hi")]) = Except.ok (Json.str "hi") := rfl
example : extractText (Json.obj [("content", Json.arr [Json.obj [("type", Json.str "text"), ("text", Json.str "a")], Json.obj [("type", Json.str "text"), ("text", Json.str "b")]])]) = Except.ok (Json.str "ab") := rfl
example : extractText (Json.obj []) = Except.ok (Json.str "") := rfl
example : extractText (Json.num 5) = Except.error PyErr.typeError := rfl
example : estimate_tokens "" "anthropic.claude-v2" = 0 := by decide
example : estimate_tokens "Hello, world!" "anthropic.Claude-v2" = 3 := by decide
example : estimate_tokens "Hello, world!" "meta.llama2" = 4 := by decide
example : estimate_tokens "Hello, world!" "mistral" = 4 := by decide

/-! Helper lemmas. -/

theorem bufLoop_eq_liveLoop (cs : List Json) : bufLoop cs = liveLoop cs := by
  induction cs with
  | nil => rfl
  | cons c cs ih => simp only [bufLoop, liveLoop, ih]

theorem liveLoop_concat (cs : List Json) :
    concatFrags (liveLoop cs).1 = (liveLoop cs).2.1 := by
  induction cs with
  | nil => rfl
  | cons c cs ih =>
    simp only [liveLoop]
    cases extractText c with
    | error e => rfl
    | ok t =>
      cases ht : pyTruthy t with
      | false => simpa [ht] using ih
      | true =>
        cases t <;> simp_all [concatFrags]

/-- C3: for every finite sequence of raw backend stream chunks, the
buffered-mode loop computes exactly the same fragment list, accumulated
output text and error as the live-mode loop (the two delivery modes apply
the same extraction and concatenation function), and the concatenation of
the fragment texts equals the accumulated output string. -/
theorem c3_cross_mode_equivalence (chunks : List Json) :
    bufLoop chunks = liveLoop chunks ∧
      concatFrags (liveLoop chunks).1 = (liveLoop chunks).2.1 :=
  ⟨bufLoop_eq_liveLoop chunks, liveLoop_concat chunks⟩

theorem leadMatch_bearer (rest : List Char) :
    leadMatch "Bearer ".data ('B' :: 'e' :: 'a' :: 'r' :: 'e' :: 'r' :: ' ' :: rest) = true := rfl

theorem stripBearerAll_of_no_occurrence :
    ∀ l : List Char, hasSub "Bearer ".data l = false → stripBearerAll l = l := by
  intro l
  induction l using stripBearerAll.induct with
  | case1 rest ih =>
    intro h
    rw [hasSub, leadMatch_bearer] at h
    simp at h
  | case2 c cs hne ih =>
    intro h
    rw [hasSub, Bool.or_eq_false_iff] at h
    rw [stripBearerAll]
    exact congrArg (c :: ·) (ih h.2)
    exact hne
  | case3 => intro _; rfl

/-- C7 counterexample: the source extracts the token with
`authorization.replace('Bearer ', '')`, which removes EVERY occurrence of
`"Bearer "`; for the header `"Bearer xBearer y"` the token looked up is
`"xy"`, not the substring `"xBearer y"` after the 7-character prefix. -/
theorem c7_counterexample :
    extractedToken "Bearer xBearer y" = "xy" ∧ ("xy" : String) ≠ "xBearer y" :=
  ⟨rfl, by decide⟩

/-- C7 (amended): the token looked up is the header with every occurrence
of `"Bearer "` removed; whenever the remainder after the leading
`"Bearer "` prefix does not itself contain `"Bearer "`, this coincides
with the substring after the 7-character prefix. -/
theorem c7_amended (rest : String) (h : hasSub "Bearer ".data rest.data = false) :
    extractedToken ("Bearer " ++ rest) = rest := by
  have hdata : ("Bearer " ++ rest).data =
      'B' :: 'e' :: 'a' :: 'r' :: 'e' :: 'r' :: ' ' :: rest.data := by
    rw [String.data_append]; rfl
  rw [extractedToken, hdata, stripBearerAll, stripBearerAll_of_no_occurrence rest.data h]

theorem c7_amended_witness : extractedToken ("Bearer " ++ "tok-123") = "tok-123" :=
  c7_amended "tok-123" (by decide)

/-- C8 counterexample: the streaming decision is Python truthiness of the
popped `stream` value, not equality with the boolean `true`: the string
`"false"` is truthy, so `{"stream": "false"}` takes the streaming path
even though the popped value is not the boolean `true`. -/
theorem c8_counterexample :
    streamFlag [("stream", Json.str "false")] = true ∧
      Json.str "false" ≠ Json.bool true :=
  ⟨rfl, fun h => nomatch h⟩

/-- C8 (amended): the streaming path is taken exactly when the popped
`stream` value is truthy in Python's sense (`pop('stream', False)`
followed by `if not use_streaming`); when the field is absent the flag
defaults to false and the synchronous path is taken. -/
theorem c8_amended (fields : List (String × Json)) :
    (streamFlag fields = true ↔
      ∃ v, fields.lookup "stream" = some v ∧ pyTruthy v = true) ∧
    (fields.lookup "stream" = none → streamFlag fields = false) := by
  constructor
  · cases h : fields.lookup "stream" with
    | none =>
      simp only [streamFlag, pyPop, h]
      constructor
      · intro hf; exact absurd hf (by decide)
      · rintro ⟨v, hv, _⟩; exact absurd hv (by simp [h])
    | some v =>
      simp only [streamFlag, pyPop, h]
      constructor
      · intro hf; exact ⟨v, rfl, hf⟩
      · rintro ⟨w, hw, hwt⟩
        rw [Option.some.injEq] at hw
        rw [hw]; exact hwt
  · intro h
    simp [streamFlag, pyPop, h, pyTruthy]

theorem c8_amended_witness : streamFlag [("stream", Json.bool true)] = true :=
  (c8_amended [("stream", Json.bool true)]).1.mpr ⟨Json.bool true, rfl, rfl⟩

/-- Specification-side count of maximal word-character runs: the number of
positions at which a word character is not preceded by a word character
(each maximal run contributes exactly one such rising edge). -/
def risingEdges (l : List Char) : Nat :=
  ((false :: l.map isWordChar).zip (l.map isWordChar)).countP (fun p => p.2 && !p.1)

theorem countRunsAux_eq_edges (l : List Char) :
    ∀ b : Bool, countRunsAux l b =
      ((b :: l.map isWordChar).zip (l.map isWordChar)).countP (fun p => p.2 && !p.1) := by
  induction l with
  | nil => intro b; rfl
  | cons c cs ih =>
    intro b
    rw [countRunsAux, List.map_cons, List.zip_cons_cons, List.countP_cons]
    cases hw : isWordChar c with
    | true =>
      rw [if_pos rfl, ih true]
      cases b <;> simp [Nat.add_comm]
    | false =>
      rw [if_neg (by simp [hw]), ih false]
      simp

/-- Specification-side multiplier of 4.3: per-model-family scaling factor
determined by case-insensitive substring match. -/
def specMult (model_id : String) : ℚ :=
  if strHasSub (lowerStr model_id) "claude" then 9 / 10
  else if strHasSub (lowerStr model_id) "llama" then 11 / 10
  else 1

theorem nat_div_as_floor (a b e : ℕ) :
    (a * e) / b = Nat.floor (((a : ℚ) / (b : ℚ)) * (e : ℚ)) := by
  have h : ((a : ℚ) / (b : ℚ)) * (e : ℚ) = ((a * e : ℕ) : ℚ) / ((b : ℕ) : ℚ) := by
    push_cast; ring
  rw [h, Nat.floor_div_eq_div]

/-- C4: for every text and model identifier the estimator returns (a
non-negative natural number and) `0` on the empty string; otherwise the
base estimate — the count of maximal word-character runs plus the count
of non-word, non-space characters — is scaled by 0.9 for model families
containing `"claude"` (case-insensitively), by 1.1 for those containing
`"llama"`, by 1 otherwise, and truncated toward zero (the floor, since
the value is non-negative). -/
theorem c4_estimate_characterization (text model_id : String) :
    estimate_tokens text model_id =
      if text.isEmpty then 0
      else Nat.floor (specMult model_id *
        ((risingEdges text.data + punctCount text : ℕ) : ℚ)) := by
  rw [estimate_tokens, specMult]
  cases ht : text.isEmpty
  · have hbase : baseEstimate text = risingEdges text.data + punctCount text := by
      rw [baseEstimate, wordCount, countRunsAux_eq_edges, risingEdges]
    simp only [Bool.false_eq_true, if_false, hbase]
    cases hc : strHasSub (lowerStr model_id) "claude"
    · cases hl : strHasSub (lowerStr model_id) "llama"
      · simp only [Bool.false_eq_true, if_false, one_mul, Nat.floor_natCast]
      · simp only [Bool.false_eq_true, if_false, if_pos rfl]
        exact nat_div_as_floor 11 10 _
    · simp only [if_pos rfl]
      exact nat_div_as_floor 9 10 _
  · simp

theorem any_key_eq_isSome_lookup (k : String) (fs : List (String × Json)) :
    fs.any (fun f => f.1 == k) = (fs.lookup k).isSome := by
  induction fs with
  | nil => rfl
  | cons a l ih =>
    by_cases h : k = a.1
    · simp [List.any_cons, List.lookup, h]
    · rw [List.any_cons, List.lookup,
        beq_eq_false_iff_ne.mpr (fun hh => h hh.symm),
        beq_eq_false_iff_ne.mpr h]
      simpa using ih

/-- Specification-side contribution of one part of a `content` list: parts
whose `type` is `"text"` contribute their `text` value (a missing `text`
contributes the empty string; a non-string one is a dynamic type error),
other parts contribute nothing; a non-object part is a dynamic error. -/
def partTextSpec (it : Json) : Except PyErr (Option String) :=
  match it with
  | Json.obj pfs =>
    match pfs.lookup "type" with
    | some (Json.str t) =>
      if t = "text" then
        match (pfs.lookup "text").getD (Json.str "") with
        | Json.str s => Except.ok (some s)
        | _ => Except.error PyErr.typeError
      else Except.ok none
    | _ => Except.ok none
  | _ => Except.error PyErr.attributeError

/-- Specification-side in-order concatenation of the contributions of the
parts of a `content` list. -/
def specConcatParts : List Json → Except PyErr String
  | [] => Except.ok ""
  | it :: its =>
    match partTextSpec it with
    | Except.error e => Except.error e
    | Except.ok o =>
      match specConcatParts its with
      | Except.error e => Except.error e
      | Except.ok rest => Except.ok ((o.getD "") ++ rest)

theorem partsLoop_spec (its : List Json) :
    ∀ acc, partsLoop its acc =
      match specConcatParts its with
      | Except.error e => Except.error e
      | Except.ok s => Except.ok (acc ++ s) := by
  induction its with
  | nil =>
    intro acc
    rw [partsLoop, specConcatParts]
    exact congrArg Except.ok (String.append_empty acc).symm
  | cons it its ih =>
    intro acc
    rw [partsLoop, specConcatParts]
    cases it with
    | obj pfs =>
      cases h : pfs.lookup "type" with
      | none =>
        simp only [partTextSpec, pyGet, h, Option.getD_none, jsonIsStr, ih acc]
        cases specConcatParts its <;> simp
      | some v =>
        cases v with
        | str t =>
          by_cases htxt : t = "text"
          · subst htxt
            simp only [partTextSpec, pyGet, h, Option.getD_some, jsonIsStr,
              beq_self_eq_true, if_pos rfl, reduceIte]
            cases hx : (pfs.lookup "text").getD (Json.str "") with
            | str s =>
              simp only [ih (acc ++ s)]
              cases specConcatParts its <;> simp [String.append_assoc]
            | _ => simp
          · have hb : (t == "text") = false := beq_eq_false_iff_ne.mpr htxt
            simp only [partTextSpec, pyGet, h, Option.getD_some, jsonIsStr, hb,
              Bool.false_eq_true, if_false, if_neg htxt, ih acc]
            cases specConcatParts its <;> simp
        | _ =>
          simp only [partTextSpec, pyGet, h, Option.getD_some, jsonIsStr,
            Bool.false_eq_true, if_false, ih acc]
          cases specConcatParts its <;> simp
    | _ =>
      rfl

/-- Specification-side per-chunk extraction for chunks that are structured
objects: a present `completion` field is returned verbatim (its string
when it is a plain string); otherwise a `content` list yields the
concatenation of its parts' contributions, any other present `content`
value is returned verbatim, and a chunk with neither field yields the
empty string. -/
def extractSpecObj (fs : List (String × Json)) : Except PyErr Json :=
  match fs.lookup "completion" with
  | some v => Except.ok v
  | none =>
    match fs.lookup "content" with
    | some (Json.arr items) =>
      match specConcatParts items with
      | Except.error e => Except.error e
      | Except.ok s => Except.ok (Json.str s)
    | some v => Except.ok v
    | none => Except.ok (Json.str "")

/-- C5 counterexample: the extractor is not total on raw chunks — a chunk
that is a bare JSON number makes `'completion' in chunk` raise a
`TypeError`, which aborts the stream, instead of yielding the empty
string. -/
theorem c5_counterexample :
    extractText (Json.num 5) = Except.error PyErr.typeError ∧
      extractText (Json.num 5) ≠ Except.ok (Json.str "") :=
  ⟨rfl, fun h => nomatch h⟩

/-- C5 (amended): restricted to chunks that are structured objects, the
extraction behaves as specified — `completion` wins and is returned
verbatim, then a `content` list is concatenated part-wise (a non-object
part or a non-string `text` value is a dynamic error), then any other
`content` value is returned verbatim, and a chunk with neither field
yields the empty string; non-object chunks may instead raise. -/
theorem c5_amended_object_extraction (fs : List (String × Json)) :
    extractText (Json.obj fs) = extractSpecObj fs := by
  rw [extractText, extractSpecObj]
  simp only [pyContains, any_key_eq_isSome_lookup]
  cases h : fs.lookup "completion" with
  | some v =>
    simp only [Option.isSome_some, pySubscript, h]
  | none =>
    simp only [Option.isSome_none, pySubscript]
    cases h2 : fs.lookup "content" with
    | none => simp [h2]
    | some v =>
      simp only [h2, Option.isSome_some]
      cases v with
      | arr items =>
        simp only [partsLoop_spec items ""]
        cases specConcatParts items <;> simp
      | _ => simp [pyGet, h2]

theorem filter_ne_key_of_not_mem (k : String) (l : List (String × Json))
    (h : k ∉ l.map Prod.fst) : l.filter (fun f => !(f.1 == k)) = l := by
  apply List.filter_eq_self.mpr
  intro x hx
  rw [Bool.not_eq_true']
  exact beq_eq_false_iff_ne.mpr
    (fun he => h (he ▸ List.mem_map_of_mem Prod.fst hx))

theorem lookup_none_not_mem (k : String) (l : List (String × Json))
    (h : l.lookup k = none) : k ∉ l.map Prod.fst := by
  induction l with
  | nil => simp
  | cons a l ih =>
    obtain ⟨a1, a2⟩ := a
    rw [List.lookup] at h
    cases hb : (k == a1) with
    | true => rw [hb] at h; exact absurd h (by simp)
    | false =>
      rw [hb] at h
      simp only [List.map_cons, List.mem_cons]
      rintro (he | hm)
      · exact absurd (beq_iff_eq.mpr he) (by rw [hb]; simp)
      · exact ih h hm

theorem eraseP_key_nodup (k : String) (l : List (String × Json))
    (h : (l.map Prod.fst).Nodup) :
    l.eraseP (fun f => f.1 == k) = l.filter (fun f => !(f.1 == k)) := by
  induction l with
  | nil => rfl
  | cons a l ih =>
    rw [List.map_cons, List.nodup_cons] at h
    by_cases hk : a.1 = k
    · have hb : (a.1 == k) = true := beq_iff_eq.mpr hk
      rw [List.eraseP_cons, hb, Bool.cond_true,
        List.filter_cons_of_neg (by rw [hb]; simp)]
      exact (filter_ne_key_of_not_mem k l (hk ▸ h.1)).symm
    · have hb : (a.1 == k) = false := beq_eq_false_iff_ne.mpr hk
      rw [List.eraseP_cons, hb, Bool.cond_false,
        List.filter_cons_of_pos (by rw [hb]; rfl), ih h.2]

theorem pyPop_snd_eq_filter (k : String) (l : List (String × Json))
    (h : (l.map Prod.fst).Nodup) :
    (pyPop l k).2 = l.filter (fun f => !(f.1 == k)) := by
  rw [pyPop]
  cases hl : l.lookup k with
  | some v => exact eraseP_key_nodup k l h
  | none => exact (filter_ne_key_of_not_mem k l (lookup_none_not_mem k l hl)).symm

/-- C9: for a request object with distinct keys (as `json.loads`
produces), the backend-bound payload is exactly the input object with the
`modelId` and `stream` fields removed: every other field is kept with
unchanged name, value and order, and the control fields never appear in
it. -/
theorem c9_backend_payload (fields0 : List (String × Json))
    (h : (fields0.map Prod.fst).Nodup) :
    backendPayload fields0 =
      fields0.filter (fun f => !(f.1 == "modelId") && !(f.1 == "stream")) ∧
    ∀ f ∈ backendPayload fields0, f.1 ≠ "modelId" ∧ f.1 ≠ "stream" := by
  have h1 : (pyPop fields0 "modelId").2 =
      fields0.filter (fun f => !(f.1 == "modelId")) :=
    pyPop_snd_eq_filter "modelId" fields0 h
  have hnd : ((fields0.filter (fun f => !(f.1 == "modelId"))).map Prod.fst).Nodup :=
    List.Nodup.sublist ((List.filter_sublist fields0).map Prod.fst) h
  have h2 : backendPayload fields0 =
      fields0.filter (fun f => !(f.1 == "modelId") && !(f.1 == "stream")) := by
    rw [backendPayload, h1, pyPop_snd_eq_filter "stream" _ hnd, List.filter_filter]
    exact List.filter_congr (fun a _ => Bool.and_comm _ _)
  refine ⟨h2, ?_⟩
  intro f hf
  rw [h2, List.mem_filter] at hf
  have hp := hf.2
  constructor
  · intro he; rw [he] at hp; simp at hp
  · intro he; rw [he] at hp; simp at hp

theorem c9_backend_payload_witness :
    backendPayload
        [("modelId", Json.str "m1"), ("stream", Json.bool true),
          ("messages", Json.arr []), ("temperature", Json.num 1)] =
      [("messages", Json.arr []), ("temperature", Json.num 1)] :=
  (c9_backend_payload
      [("modelId", Json.str "m1"), ("stream", Json.bool true),
        ("messages", Json.arr []), ("temperature", Json.num 1)]
      (by decide)).1.trans rfl

/-- Well-typedness of one part of a message's `content` list: an object
whose `type` is either not the string `"text"`, or is `"text"` with the
`text` field absent or a plain string. -/
def wellTypedPart (p : Json) : Bool :=
  match p with
  | Json.obj pfs =>
    match pfs.lookup "type" with
    | some (Json.str t) =>
      if t = "text" then
        match (pfs.lookup "text").getD (Json.str "") with
        | Json.str _ => true
        | _ => false
      else true
    | _ => true
  | _ => false

/-- Well-typedness of one message: an object whose `content` is a plain
string or a list of well-typed parts. -/
def wellTypedMsg (m : Json) : Bool :=
  match m with
  | Json.obj mfs =>
    match mfs.lookup "content" with
    | some (Json.str _) => true
    | some (Json.arr parts) => parts.all wellTypedPart
    | _ => false
  | _ => false

/-- Specification-side contribution of one part (empty unless it is an
object of type `"text"` with a string `text` value). -/
def specPartText (p : Json) : String :=
  match p with
  | Json.obj pfs =>
    match pfs.lookup "type" with
    | some (Json.str t) =>
      if t = "text" then
        match (pfs.lookup "text").getD (Json.str "") with
        | Json.str s => s
        | _ => ""
      else ""
    | _ => ""
  | _ => ""

/-- Specification-side contribution of one message: its plain string
`content`, or the in-order concatenation of its parts' `text` values. -/
def specMsgText (m : Json) : String :=
  match m with
  | Json.obj mfs =>
    match mfs.lookup "content" with
    | some (Json.str s) => s
    | some (Json.arr parts) => concatFrags (parts.map specPartText)
    | _ => ""
  | _ => ""

/-- Specification-side input text: the in-order concatenation of the
messages' contributions. -/
def specInputText (ms : List Json) : String := concatFrags (ms.map specMsgText)

theorem msgPartsLoop_of_wellTyped (parts : List Json) :
    parts.all wellTypedPart = true → ∀ acc,
      msgPartsLoop parts acc =
        Except.ok (acc ++ concatFrags (parts.map specPartText)) := by
  induction parts with
  | nil =>
    intro _ acc
    rw [msgPartsLoop, concatFrags]
    exact congrArg Except.ok (String.append_empty acc).symm
  | cons p parts ih =>
    intro h acc
    rw [List.all_cons, Bool.and_eq_true] at h
    rw [msgPartsLoop]
    cases p with
    | obj pfs =>
      cases ht : pfs.lookup "type" with
      | none =>
        simp only [pyGet, ht, Option.getD_none, jsonIsStr, Bool.false_eq_true,
          if_false, ih h.2 acc, specPartText, List.map_cons, concatFrags,
          List.foldr_cons]
        rfl
      | some v =>
        cases v with
        | str t =>
          by_cases htxt : t = "text"
          · subst htxt
            have h1 := h.1
            rw [wellTypedPart] at h1
            simp only [ht, if_pos rfl, reduceIte] at h1
            cases hx : (pfs.lookup "text").getD (Json.str "") with
            | str s =>
              simp only [pyGet, ht, Option.getD_some, jsonIsStr, beq_self_eq_true,
                if_pos rfl, reduceIte, hx, ih h.2 (acc ++ s), specPartText,
                List.map_cons, concatFrags, List.foldr_cons, String.append_assoc]
            | null => rw [hx] at h1; simp at h1
            | bool b => rw [hx] at h1; simp at h1
            | num n => rw [hx] at h1; simp at h1
            | arr xs => rw [hx] at h1; simp at h1
            | obj fs2 => rw [hx] at h1; simp at h1
          · have hb : (t == "text") = false := beq_eq_false_iff_ne.mpr htxt
            simp only [pyGet, ht, Option.getD_some, jsonIsStr, hb,
              Bool.false_eq_true, if_false, ih h.2 acc, specPartText,
              List.map_cons, concatFrags, List.foldr_cons, if_neg htxt]
            rfl
        | _ =>
          simp only [pyGet, ht, Option.getD_some, jsonIsStr, Bool.false_eq_true,
            if_false, ih h.2 acc, specPartText, List.map_cons, concatFrags,
            List.foldr_cons]
          rfl
    | _ => simp [wellTypedPart] at h

theorem inputTextLoop_of_wellTyped (ms : List Json) :
    ms.all wellTypedMsg = true → ∀ acc,
      inputTextLoop ms acc = Except.ok (acc ++ specInputText ms) := by
  induction ms with
  | nil =>
    intro _ acc
    rw [inputTextLoop, specInputText, concatFrags]
    exact congrArg Except.ok (String.append_empty acc).symm
  | cons m ms ih =>
    intro h acc
    rw [List.all_cons, Bool.and_eq_true] at h
    rw [inputTextLoop]
    cases m with
    | obj mfs =>
      cases hc : mfs.lookup "content" with
      | none =>
        have h1 := h.1
        rw [wellTypedMsg] at h1
        simp only [hc] at h1
        exact absurd h1 Bool.false_ne_true
      | some v =>
        cases v with
        | str s =>
          simp only [pyGet, hc, Option.getD_some, ih h.2 (acc ++ s),
            specInputText, specMsgText, List.map_cons, concatFrags,
            List.foldr_cons, String.append_assoc]
        | arr parts =>
          have h1 := h.1
          rw [wellTypedMsg] at h1
          simp only [hc] at h1
          simp only [pyGet, hc, Option.getD_some,
            msgPartsLoop_of_wellTyped parts h1 acc, ih h.2,
            specInputText, specMsgText, List.map_cons, concatFrags,
            List.foldr_cons, String.append_assoc]
        | _ =>
          have h1 := h.1
          rw [wellTypedMsg] at h1
          simp only [hc] at h1
          exact absurd h1 Bool.false_ne_true
    | _ => simp [wellTypedMsg] at h

/-- C10: once the body has been normalized, the recorded `input_tokens`
value is the token estimate of the in-order concatenation of the
`messages` contributions — each message's plain-string `content`, or the
`text` values of its parts of type `"text"` — and a body with no
`messages` field yields `input_tokens = 0` for every model value. -/
theorem c10_input_tokens (fields : List (String × Json)) (model_id : Json) :
    (fields.lookup "messages" = none →
      computedInputTokens fields model_id = Except.ok 0) ∧
    (∀ ms m, fields.lookup "messages" = some (Json.arr ms) →
      ms.all wellTypedMsg = true → model_id = Json.str m →
      computedInputTokens fields model_id =
        Except.ok (estimate_tokens (specInputText ms) m)) := by
  constructor
  · intro h
    rw [computedInputTokens, inputTextOf, h]
    rfl
  · intro ms m hms hwt hm
    subst hm
    have hit : inputTextOf fields = Except.ok (specInputText ms) := by
      rw [inputTextOf, hms]
      show inputTextLoop ms "" = _
      rw [inputTextLoop_of_wellTyped ms hwt ""]
      rfl
    rw [computedInputTokens, hit]
    show estimateE (specInputText ms) (Json.str m) =
      Except.ok (estimate_tokens (specInputText ms) m)
    rw [estimateE]
    by_cases he : (specInputText ms).isEmpty
    · rw [if_pos he, estimate_tokens, if_pos he]
    · rw [if_neg he]

theorem c10_input_tokens_witness :
    computedInputTokens [("temperature", Json.num 1)] (Json.num 3) = Except.ok 0 ∧
    computedInputTokens
        [("messages", Json.arr [Json.obj [("content", Json.str "hello world")]])]
        (Json.str "anthropic.claude-v2") =
      Except.ok 1 :=
  ⟨(c10_input_tokens [("temperature", Json.num 1)] (Json.num 3)).1 rfl,
   ((c10_input_tokens
        [("messages", Json.arr [Json.obj [("content", Json.str "hello world")]])]
        (Json.str "anthropic.claude-v2")).2
      [Json.obj [("content", Json.str "hello world")]]
      "anthropic.claude-v2" rfl rfl rfl).trans (by rfl)⟩

/-- True exactly on structured objects. -/
def jsonIsObj : Json → Bool
  | Json.obj _ => true
  | _ => false

theorem lambda_handler_to_lookup (ev : Event)
    (store : String → Option (List (String × Json))) (be : Backend) (a : String)
    (hm : ev.httpMethod ≠ "OPTIONS")
    (ha : ev.authorization = some a)
    (hpre : leadMatch "Bearer ".data a.data = true) :
    lambda_handler ev store be = lookupStage (extractedToken a) ev store be := by
  rw [lambda_handler, beq_eq_false_iff_ne.mpr hm, ha]
  simp [hpre]

/-- C6: for every request whose bearer token is absent from the token
store, or present with a status outside `{active, deprecated}`, the
handler returns 401 (`Invalid or expired token`), performs no backend
call and emits no usage record. -/
theorem c6_invalid_or_expired (ev : Event)
    (store : String → Option (List (String × Json))) (be : Backend) (a : String)
    (hm : ev.httpMethod ≠ "OPTIONS")
    (ha : ev.authorization = some a)
    (hpre : leadMatch "Bearer ".data a.data = true)
    (hbad : store (extractedToken a) = none ∨
      ∃ item, store (extractedToken a) = some item ∧ statusOk item = false) :
    respStatus (lambda_handler ev store be) = some 401 ∧
    (lambda_handler ev store be).backendCalls = 0 ∧
    allRecords (lambda_handler ev store be) = [] := by
  rw [lambda_handler_to_lookup ev store be a hm ha hpre]
  rcases hbad with hnone | ⟨item, hsome, hstat⟩
  · rw [lookupStage, hnone]
    exact ⟨rfl, rfl, rfl⟩
  · have hok : itemOkB item = false := by rw [itemOkB, hstat, Bool.and_false]
    rw [lookupStage, hsome]
    simp only [hok, Bool.not_false, if_pos rfl]
    exact ⟨rfl, rfl, rfl⟩

/-- Shared concrete token-store record: an active customer `c1`. -/
def exItem : List (String × Json) :=
  [("token", Json.str "tokT"), ("customer_id", Json.str "c1"),
    ("status", Json.str "active")]

/-- Shared concrete token store: `tokT` maps to `exItem`. -/
def exStore : String → Option (List (String × Json)) :=
  fun t => if t == "tokT" then some exItem else none

/-- Shared concrete healthy backend. -/
def exBackend : Backend :=
  { invokeResult := Except.ok (Json.obj [("content", Json.str "hi there")])
    streamChunks := [], streamFault := false }

theorem c6_invalid_or_expired_witness :
    respStatus (lambda_handler
        { httpMethod := "POST", authorization := some "Bearer nope"
          body := some (Json.obj []), isApiGateway := true } exStore exBackend) =
      some 401 ∧
    (lambda_handler
        { httpMethod := "POST", authorization := some "Bearer nope"
          body := some (Json.obj []), isApiGateway := true } exStore exBackend).backendCalls = 0 ∧
    allRecords (lambda_handler
        { httpMethod := "POST", authorization := some "Bearer nope"
          body := some (Json.obj []), isApiGateway := true } exStore exBackend) = [] :=
  c6_invalid_or_expired
    { httpMethod := "POST", authorization := some "Bearer nope"
      body := some (Json.obj []), isApiGateway := true }
    exStore exBackend "Bearer nope" (by decide) rfl rfl (Or.inl rfl)

/-- Concrete event for the malformed-body scenario: authorized caller,
body text that is not valid JSON. -/
def c1Event : Event :=
  { httpMethod := "POST", authorization := some "Bearer tokT"
    body := none, isApiGateway := true }

/-- C1 counterexample: an authenticated request whose body is not
well-formed is answered with status 500 via the generic exception path —
not with a 400-class outcome as claimed — though indeed without any
backend call. -/
theorem c1_counterexample :
    respStatus (lambda_handler c1Event exStore exBackend) = some 500 ∧
    respStatus (lambda_handler c1Event exStore exBackend) ≠ some 400 ∧
    (lambda_handler c1Event exStore exBackend).backendCalls = 0 :=
  ⟨rfl, by decide, rfl⟩

/-- C1 (amended): for every authenticated non-OPTIONS request whose raw
body is not a well-formed structured object (unparseable text, or a JSON
value that is not an object), the handler fails through its generic
exception path with a 500 outcome — not 400 — and no backend call
occurs. -/
theorem c1_amended_malformed_body_500 (ev : Event)
    (store : String → Option (List (String × Json))) (be : Backend) (a : String)
    (item : List (String × Json))
    (hm : ev.httpMethod ≠ "OPTIONS")
    (ha : ev.authorization = some a)
    (hpre : leadMatch "Bearer ".data a.data = true)
    (hstore : store (extractedToken a) = some item)
    (hok : itemOkB item = true)
    (hbody : ev.body = none ∨ ∃ j, ev.body = some j ∧ jsonIsObj j = false) :
    respStatus (lambda_handler ev store be) = some 500 ∧
    (lambda_handler ev store be).backendCalls = 0 := by
  rw [lambda_handler_to_lookup ev store be a hm ha hpre, lookupStage, hstore]
  simp only [hok, Bool.not_true, Bool.false_eq_true, if_false]
  rcases hbody with hnone | ⟨j, hsome, hobj⟩
  · rw [afterAuth.eq_def, hnone]
    exact ⟨rfl, rfl⟩
  · rw [afterAuth.eq_def, hsome]
    cases j with
    | obj fs => exact absurd hobj (by simp [jsonIsObj])
    | null => exact ⟨rfl, rfl⟩
    | bool b => exact ⟨rfl, rfl⟩
    | num n => exact ⟨rfl, rfl⟩
    | str s => exact ⟨rfl, rfl⟩
    | arr xs => exact ⟨rfl, rfl⟩

theorem c1_amended_witness :
    respStatus (lambda_handler
        { httpMethod := "POST", authorization := some "Bearer tokT"
          body := some (Json.arr []), isApiGateway := true } exStore exBackend) =
      some 500 ∧
    (lambda_handler
        { httpMethod := "POST", authorization := some "Bearer tokT"
          body := some (Json.arr []), isApiGateway := true } exStore exBackend).backendCalls = 0 :=
  c1_amended_malformed_body_500
    { httpMethod := "POST", authorization := some "Bearer tokT"
      body := some (Json.arr []), isApiGateway := true }
    exStore exBackend "Bearer tokT" exItem (by decide) rfl rfl rfl rfl
    (Or.inr ⟨Json.arr [], rfl, rfl⟩)

/-- Concrete event for the mid-stream-fault scenario: authorized caller,
streaming requested, live delivery (no API-gateway request context). -/
def c2Event : Event :=
  { httpMethod := "POST", authorization := some "Bearer tokT"
    body := some (Json.obj
      [("modelId", Json.str "anthropic.claude-v2"), ("stream", Json.bool true)])
    isApiGateway := false }

/-- Concrete backend whose response stream yields one chunk and then
raises mid-stream. -/
def c2Backend : Backend :=
  { invokeResult := Except.ok (Json.obj [])
    streamChunks := [Json.obj [("completion", Json.str "partial")]]
    streamFault := true }

/-- C2 (code bug): the customer is resolved (active record, truthy
`customer_id`) and streaming proceeds in live mode, yet a mid-stream
backend fault makes the generator raise after the handler has already
returned, outside the handler's `except` clause — so ZERO usage records
are emitted for this call, where the specification requires exactly
one. -/
theorem c2_midstream_fault_zero_records :
    exStore (extractedToken "Bearer tokT") = some exItem ∧
    itemOkB exItem = true ∧
    pyTruthy ((exItem.lookup "customer_id").getD Json.null) = true ∧
    liveRaised (lambda_handler c2Event exStore c2Backend) = true ∧
    allRecords (lambda_handler c2Event exStore c2Backend) = [] :=
  ⟨rfl, rfl, rfl, rfl, rfl⟩
